import Mathlib

/-!
Verification of the phone-validation multi-agent pipeline.

Shallow embedding of the agents (ConfidenceAgent, RetryAgent, WhatsAppAgent,
InactiveAccountAgent, Supervisor) translated from the TypeScript sources.
JavaScript numbers are modelled as `Int`/`Nat`/`Rat`; JavaScript string
truthiness (empty string is falsy) is modelled explicitly; optional values
are `Option`.
-/

set_option maxRecDepth 4096

/-! ## Shared data model (src/agents/types.ts) -/

/-- Tag of a raw metadata source entry (`rawData[i].source`). -/
inductive RawSource where
  | numverify
  | abstract
deriving DecidableEq, Repr

/-- Model of `ValidationData.source`: which metadata source(s) contributed. -/
inductive SourceTag where
  | numverify
  | abstract
  | both
deriving DecidableEq, Repr

/-- Raw per-source payload as consumed by `detectCarrierConflicts`:
NumVerify exposes `carrier`, `line_type`, `valid`; Abstract exposes
`carrier`, `type`, `valid`. Absent fields are `none`. -/
structure RawPayload where
  carrier : Option String
  line_type : Option String
  type : Option String
  valid : Bool
deriving DecidableEq, Repr

/-- One entry of `ValidationData.rawData`. -/
structure RawEntry where
  source : RawSource
  data : RawPayload
deriving DecidableEq, Repr

/-- Model of `ValidationData` (types.ts). `lineType` is one of
"mobile" | "landline" | "voip" | "unknown", kept as a string to mirror the
string comparisons in the code. -/
structure ValidationData where
  phoneNumber : String
  countryCode : String
  countryName : String
  carrier : Option String
  lineType : String
  valid : Bool
  formatted : Option String
  source : SourceTag
  rawData : List RawEntry
deriving DecidableEq, Repr

/-- Model of `WhatsAppData` (types.ts). The TypeScript field `exists` is a reserved
word in Lean, embedded here as `exists_`. The audit-only `metadata` object
of the enhanced agent carries no data read by any other component and is
omitted. -/
structure WhatsAppData where
  exists_ : Bool
  verified : Bool
  businessAccount : Bool
  profilePicture : Bool
  about : Option String
deriving DecidableEq, Repr

/-- Model of `AgentError` (types.ts), reduced to the fields the control flow reads. -/
structure AgentError where
  code : String
  message : String
  recoverable : Bool
deriving DecidableEq, Repr

/-- Model of `RetryContext` (types.ts). -/
structure RetryContext where
  attempts : Nat
  maxAttempts : Nat
  lastError : Option AgentError
  backoffDelay : Nat
  useBackupKey : Bool
  failedTools : List String
deriving DecidableEq, Repr

/-- The `executionPlan` slice handed to the confidence agent:
`{ skipWhatsApp, riskLevel }` with riskLevel "low" | "medium" | "high". -/
structure PlanInfo where
  skipWhatsApp : Bool
  riskLevel : String
deriving DecidableEq, Repr

/-- Model of `ConfidenceScore.breakdown` (types.ts). -/
structure ScoreBreakdown where
  baseScore : Int
  carrierDeduction : Int
  retryDeduction : Int
  whatsappBonus : Int
deriving DecidableEq, Repr

/-- Model of `ConfidenceScore` (types.ts). -/
structure ConfidenceScore where
  score : Int
  reasoning : String
  discrepancies : List String
  recommendations : List String
  breakdown : ScoreBreakdown
deriving DecidableEq, Repr

/-- Model of `ConfidenceInput` (ConfidenceAgent.ts lines 30-38). -/
structure ConfidenceInput where
  validation : ValidationData
  whatsapp : Option WhatsAppData
  retryContext : Option RetryContext
  executionPlan : PlanInfo
deriving DecidableEq, Repr

/-- JavaScript truthiness of an optional string: `undefined` and the empty
string are falsy. -/
def optTruthy : Option String → Bool
  | none => false
  | some s => !s.isEmpty

/-- Model of `s.toLowerCase()`, computed on the character lists (kernel-reducible). -/
def strToLower (s : String) : String := String.mk (s.data.map Char.toLower)

/-! ## ConfidenceAgent (src/agents/confidence/ConfidenceAgent.ts)

`detectCarrierConflicts` performs three independent checks in order
(carrier, line type, validity); each appends at most one string. -/

/-- Carrier check of `detectCarrierConflicts` (lines 235-241):
both carriers truthy and strictly unequal (plain `!==`). -/
def carrierConflictsPart (s1 s2 : RawPayload) : List String :=
  if optTruthy s1.carrier ∧ optTruthy s2.carrier ∧ s1.carrier ≠ s2.carrier then
    ["Carrier mismatch: NumVerify=\"" ++ s1.carrier.getD "" ++ "\" vs Abstract=\"" ++
      s2.carrier.getD "" ++ "\""]
  else []

/-- Line-type check of `detectCarrierConflicts` (lines 244-253):
`type1 = s1.line_type?.toLowerCase()`, `type2 = s2.type?.toLowerCase()`;
a mismatch is reported when both are truthy and unequal, except in the one
order where type1 is "fixed_line" and type2 is "landline". -/
def lineTypeConflictsPart (s1 s2 : RawPayload) : List String :=
  let type1 := s1.line_type.map strToLower
  let type2 := s2.type.map strToLower
  if optTruthy type1 ∧ optTruthy type2 ∧ type1 ≠ type2 ∧
      ¬(type1 = some "fixed_line" ∧ type2 = some "landline") then
    ["Line type mismatch: NumVerify=\"" ++ type1.getD "" ++ "\" vs Abstract=\"" ++
      type2.getD "" ++ "\""]
  else []

/-- Validity check of `detectCarrierConflicts` (lines 256-260). -/
def validityConflictsPart (s1 s2 : RawPayload) : List String :=
  if s1.valid ≠ s2.valid then
    ["Validity mismatch: One API validates, the other does not"]
  else []

/-- Model of `ConfidenceAgent.detectCarrierConflicts` (lines 226-267): locate the
NumVerify and the Abstract payloads in `rawData`; when both are present run
the three checks in order. -/
def detectCarrierConflicts (rawData : List RawEntry) : List String :=
  match (rawData.find? (fun r => r.source = RawSource.numverify)).map RawEntry.data,
        (rawData.find? (fun r => r.source = RawSource.abstract)).map RawEntry.data with
  | some s1, some s2 =>
      carrierConflictsPart s1 s2 ++ lineTypeConflictsPart s1 s2 ++ validityConflictsPart s1 s2
  | _, _ => []

/-- Mutable scoring state of `ConfidenceAgent.execute`
(`baseScore`, `carrierDeduction`, `retryDeduction`, `whatsappBonus`,
`discrepancies`, `recommendations`). -/
structure ConfState where
  baseScore : Int
  carrierDeduction : Int
  retryDeduction : Int
  whatsappBonus : Int
  discrepancies : List String
  recommendations : List String
deriving DecidableEq, Repr

/-- ANALYSIS 1 (lines 89-99): validation quality. -/
def analysis1 (v : ValidationData) (s : ConfState) : ConfState :=
  let s := if !v.valid then
      { s with baseScore := s.baseScore - 15,
               discrepancies := s.discrepancies ++ ["Phone number failed validation"] }
    else s
  if v.lineType = "unknown" then
    { s with baseScore := s.baseScore - 5,
             discrepancies := s.discrepancies ++ ["Line type could not be determined"] }
  else s

/-- ANALYSIS 2 (lines 104-120): carrier data conflicts, only when
the source is "both" and `rawData.length === 2`. -/
def analysis2 (v : ValidationData) (s : ConfState) : ConfState :=
  if v.source = SourceTag.both ∧ v.rawData.length = 2 then
    let conflicts := detectCarrierConflicts v.rawData
    if conflicts.length > 0 then
      { s with carrierDeduction := 20, discrepancies := s.discrepancies ++ conflicts }
    else
      { s with recommendations := s.recommendations ++ ["Data validated across multiple sources"] }
  else s

/-- ANALYSIS 3 (lines 125-131): retry deduction, 10 points per attempt. -/
def analysis3 (rcx : Option RetryContext) (s : ConfState) : ConfState :=
  match rcx with
  | some rc =>
      if rc.attempts > 0 then
        { s with retryDeduction := (rc.attempts : Int) * 10,
                 discrepancies := s.discrepancies ++
                   [toString rc.attempts ++ " retry attempts required"] }
      else s
  | none => s

/-- ANALYSIS 4 (lines 136-160): WhatsApp cross-validation. -/
def analysis4 (v : ValidationData) (w : Option WhatsAppData) (plan : PlanInfo)
    (s : ConfState) : ConfState :=
  match w with
  | some wa =>
      let s := if wa.exists_ ∧ wa.verified then
          { s with whatsappBonus := 5,
                   recommendations := s.recommendations ++
                     ["WhatsApp account verified - increases confidence"] }
        else s
      let s := if wa.businessAccount then
          { s with whatsappBonus := s.whatsappBonus + 3,
                   recommendations := s.recommendations ++
                     ["Business account detected - professional use"] }
        else s
      if v.lineType = "landline" ∧ wa.exists_ then
        { s with baseScore := s.baseScore - 10,
                 discrepancies := s.discrepancies ++
                   ["Conflict: Landline with WhatsApp presence (possible VoIP)"] }
      else s
  | none =>
      if plan.skipWhatsApp then
        { s with baseScore := s.baseScore - 5,
                 discrepancies := s.discrepancies ++ ["WhatsApp check was skipped"],
                 recommendations := s.recommendations ++
                   ["Consider running WhatsApp check for mobile numbers"] }
      else s

/-- ANALYSIS 5 (lines 165-174): high-risk level with single-source data. -/
def analysis5 (v : ValidationData) (plan : PlanInfo) (s : ConfState) : ConfState :=
  if plan.riskLevel = "high" then
    if v.source ≠ SourceTag.both then
      { s with baseScore := s.baseScore - 10,
               discrepancies := s.discrepancies ++
                 ["High-risk country but only single-source validation"],
               recommendations := s.recommendations ++
                 ["Recommend dual-source validation for high-risk regions"] }
    else
      { s with recommendations := s.recommendations ++
                 ["Appropriate dual-validation used for high-risk region"] }
  else s

/-- Model of `trace.charAt(0).toUpperCase() + trace.slice(1)`. -/
def capitalizeFirst (s : String) : String :=
  match s.data with
  | [] => ""
  | c :: cs => String.mk (c.toUpper :: cs)

/-- Model of `ConfidenceAgent.generateReasoningTrace` (lines 272-311). -/
def generateReasoningTrace (finalScore _baseScore carrierDeduction retryDeduction
    whatsappBonus : Int) (discrepancies : List String) : String :=
  let parts : List String :=
    (if finalScore ≥ 90 then ["High confidence validation"]
     else if finalScore ≥ 70 then ["Moderate confidence validation"]
     else if finalScore ≥ 50 then ["Low confidence validation"]
     else ["Very low confidence validation"])
    ++ (if carrierDeduction > 0 then ["carrier data conflicts detected"] else [])
    ++ (if retryDeduction > 0 then [toString (retryDeduction / 10) ++ " API retries required"]
        else [])
    ++ (if whatsappBonus > 0 then ["WhatsApp verification adds confidence"] else [])
    ++ (if discrepancies.length > 0 then
          [toString discrepancies.length ++ " discrepancies found"] else [])
  capitalizeFirst (String.intercalate ", " parts) ++ "."

/-- Model of `ConfidenceAgent.execute` (lines 66-221): run the five analyses in
order over the initial state, clamp, and assemble the `ConfidenceScore`. -/
def confidenceExecute (input : ConfidenceInput) : ConfidenceScore :=
  let s0 : ConfState := ⟨100, 0, 0, 0, [], []⟩
  let s := analysis1 input.validation s0
  let s := analysis2 input.validation s
  let s := analysis3 input.retryContext s
  let s := analysis4 input.validation input.whatsapp input.executionPlan s
  let s := analysis5 input.validation input.executionPlan s
  let finalScore : Int :=
    min 100 (max 0 (s.baseScore - s.carrierDeduction - s.retryDeduction + s.whatsappBonus))
  { score := finalScore
    reasoning := generateReasoningTrace finalScore s.baseScore s.carrierDeduction
      s.retryDeduction s.whatsappBonus s.discrepancies
    discrepancies := s.discrepancies
    recommendations := s.recommendations
    breakdown := ⟨s.baseScore, s.carrierDeduction, s.retryDeduction, s.whatsappBonus⟩ }

/-! ## RetryAgent (src/agents/retry/RetryAgent.ts) -/

/-- Model of `RetryAgent.MAX_ATTEMPTS` (line 37). -/
def MAX_ATTEMPTS : Nat := 3

/-- Model of `RetryAgent.BASE_BACKOFF_MS` (line 38). -/
def BASE_BACKOFF_MS : Nat := 2000

/-- Result of `RetryAgent.execute`: whether a retry succeeded, the final
`RetryContext`, and the list of backoff delays slept, in order. -/
structure RetryOutcome where
  success : Bool
  context : RetryContext
  delays : List Nat
deriving DecidableEq, Repr

/-- The retry loop of `RetryAgent.execute` (lines 105-151).
`taskSucceeds n` tells whether the nth retry attempt of `originalTask`
succeeds. Each iteration sets `context.attempts`, computes the backoff
delay `BASE_BOFF × 2^(attempt−1)`, sleeps it (recorded in `delays`),
switches to the backup key from the second attempt on, then runs the task. -/
def retryLoop (taskSucceeds : Nat → Bool) :
    Nat → Nat → RetryContext → List Nat → RetryOutcome
  | 0, _, ctx, delays => ⟨false, ctx, delays⟩
  | fuel + 1, attempt, ctx, delays =>
    let backoffDelay := BASE_BACKOFF_MS * 2 ^ (attempt - 1)
    let ctx := { ctx with attempts := attempt, backoffDelay := backoffDelay }
    let delays := delays ++ [backoffDelay]
    let ctx := if attempt > 1 ∧ ¬ctx.useBackupKey then { ctx with useBackupKey := true } else ctx
    if taskSucceeds attempt then ⟨true, ctx, delays⟩
    else retryLoop taskSucceeds fuel (attempt + 1) ctx delays

/-- Model of `RetryAgent.execute` (lines 61-178). A non-recoverable original error
aborts with zero attempts; otherwise the loop runs up to `MAX_ATTEMPTS`
retry attempts starting from attempt 1. -/
def retryExecute (originalError : AgentError) (failedTool : String)
    (taskSucceeds : Nat → Bool) : RetryOutcome :=
  if ¬originalError.recoverable then
    ⟨false, ⟨0, MAX_ATTEMPTS, some originalError, 0, false, [failedTool]⟩, []⟩
  else
    retryLoop taskSucceeds MAX_ATTEMPTS 1
      ⟨0, MAX_ATTEMPTS, some originalError, BASE_BACKOFF_MS, false, [failedTool]⟩ []

/-! ## WhatsAppAgent, enhanced variant (WhatsAppAgent.ts of the
Twilio-based build) -/

/-- Model of `line_type_intelligence` object of a Twilio lookup response. -/
structure LineTypeIntelligence where
  type : String
  carrier_name : String
deriving DecidableEq, Repr

/-- Model of `caller_name` object of a Twilio lookup response. -/
structure CallerName where
  caller_name : String
  caller_type : String
deriving DecidableEq, Repr

/-- Model of `TwilioLookupResponse` (WhatsAppAgent.ts lines 34-45). -/
structure TwilioLookupResponse where
  valid : Bool
  country_code : String
  line_type_intelligence : Option LineTypeIntelligence
  caller_name : Option CallerName
deriving DecidableEq, Repr

/-- WhatsApp country prevalence table of `detectWhatsAppPresence`
(lines 335-350), in percent; absent countries default to 60
(`whatsappPrevalence[countryCode] || 0.60`; no entry is zero, so the
JavaScript falsy fallback coincides with a plain lookup default). -/
def waPrevalence (countryCode : String) : Nat :=
  (([("IN", 90), ("BR", 95), ("MX", 80), ("AR", 75), ("DE", 70), ("ES", 65),
     ("IT", 60), ("GB", 55), ("FR", 50), ("US", 30), ("CA", 35), ("JP", 40),
     ("CN", 5), ("KR", 25)] : List (String × Nat)).lookup countryCode).getD 60

/-- Model of `WhatsAppAgent.detectWhatsAppPresence` (lines 325-376). -/
def detectWhatsAppPresence (t : TwilioLookupResponse) : Bool :=
  let lineType := t.line_type_intelligence.map LineTypeIntelligence.type
  if lineType = some "landline" then false
  else
    let prevalence := waPrevalence t.country_code
    if lineType = some "mobile" then
      if prevalence ≥ 70 ∧ t.valid then true
      else if prevalence ≥ 50 ∧ t.valid then true
      else if prevalence ≥ 30 ∧ t.valid then true
      else false
    else if lineType = some "voip" then decide (prevalence ≥ 70) && t.valid
    else false

/-- Model of `BusinessAccountData` of the enhanced agent. -/
structure BusinessAccountData where
  isLikelyBusiness : Bool
  confidence : ℚ
  score : Nat
  reasons : List String
  accountType : String
deriving DecidableEq, Repr

/-- The digits-only cleanup `phoneNumber.replace(/\D/g, ...)` of the source. -/
def digitsOnly (s : String) : String := String.mk (s.data.filter Char.isDigit)

/-- Model of `s.startsWith(p)`, computed on the character lists (kernel-reducible). -/
def strStartsWith (s p : String) : Bool := p.data.isPrefixOf s.data

/-- Toll-free test `/^(\+?1)?(800|888|877|866|855|844|833)/` applied to a
digits-only string (the optional plus can never match there). -/
def isTollFreePattern (cleaned : String) : Bool :=
  ["800", "888", "877", "866", "855", "844", "833"].any fun p =>
    strStartsWith cleaned p || strStartsWith cleaned ("1" ++ p)

/-- JavaScript `s.includes(sub)`, computed on the character lists
(kernel-reducible). -/
def containsSubstring (s sub : String) : Bool := go s.data
where
  go : List Char → Bool
    | [] => sub.data.isEmpty
    | c :: cs => sub.data.isPrefixOf (c :: cs) || go cs

/-- Model of `/(\d)\1{3,}/` over a digits-only string: four or more equal
consecutive characters. -/
def hasRun4 : List Char → Bool
  | a :: rest =>
    (match rest with
     | b :: c :: d :: _ => (a = b ∧ b = c ∧ c = d : Bool)
     | _ => false) || hasRun4 rest
  | [] => false

/-- Model of `WhatsAppAgent.detectBusinessAccount` (lines 381-439): weighted
heuristic score with one reason per fired signal, in source order. -/
def detectBusinessAccount (phoneNumber : String) (t : TwilioLookupResponse) :
    BusinessAccountData :=
  let cleaned := digitsOnly phoneNumber
  let acc : Nat × List String := (0, [])
  let acc := if (t.caller_name.map CallerName.caller_type) = some "BUSINESS" then
      (acc.1 + 40, acc.2 ++ ["Registered as business line with carrier"]) else acc
  let acc := if isTollFreePattern cleaned then
      (acc.1 + 30, acc.2 ++ ["Toll-free number (strong business indicator)"]) else acc
  let lineType := t.line_type_intelligence.map LineTypeIntelligence.type
  let acc := if lineType = some "landline" then
      (acc.1 + 15, acc.2 ++ ["Landline (often used by businesses)"])
    else if lineType = some "voip" then
      (acc.1 + 20, acc.2 ++ ["VoIP number (common for business systems)"])
    else acc
  let carrier := (t.line_type_intelligence.map LineTypeIntelligence.carrier_name).getD ""
  let acc := if ["Business", "Enterprise", "Corporate", "Commercial"].any
        (fun kw => containsSubstring carrier kw) then
      (acc.1 + 25, acc.2 ++ ["Business-focused carrier: " ++ carrier]) else acc
  let acc := if hasRun4 cleaned.data then
      (acc.1 + 10, acc.2 ++ ["Sequential number pattern (common for business lines)"]) else acc
  let isLikelyBusiness := acc.1 ≥ 50
  { isLikelyBusiness := isLikelyBusiness
    confidence := min ((acc.1 : ℚ) / 100) 1
    score := acc.1
    reasons := if acc.2 = [] then ["Insufficient data for business account detection"] else acc.2
    accountType := if isLikelyBusiness then "business" else "personal" }

/-- Model of `validationData` hint handed to the enhanced WhatsApp agent
(WhatsAppAgent.ts lines 27-31). -/
structure WhatsAppValidationHint where
  countryCode : String
  lineType : String
  carrier : Option String
deriving DecidableEq, Repr

/-- Model of `WhatsAppInput` of the enhanced agent (credentials omitted: the Twilio
call is abstracted into a `TwilioOutcome`). -/
structure WhatsAppInput where
  phoneNumber : String
  retryContext : Option RetryContext
  validationData : Option WhatsAppValidationHint
deriving DecidableEq, Repr

/-- Outcome of `checkTwilioLookup`: data, or an error `{code, message}`. -/
inductive TwilioOutcome where
  | ok (data : TwilioLookupResponse)
  | err (code : String) (message : String)
deriving DecidableEq, Repr

/-- Trimmed `AgentResponse<WhatsAppData>`: success flag, payload, and the
error code/recoverability the supervisor control flow reads. -/
structure WhatsAppResponse where
  success : Bool
  data : Option WhatsAppData
  errorCode : Option String
  recoverable : Bool
deriving DecidableEq, Repr

/-- Model of `WhatsAppAgent.handleError` (lines 444-502): map a Twilio error code to
the error response taxonomy. -/
def whatsappHandleError (code : String) : WhatsAppResponse :=
  if code = "429" ∨ code = "88" then ⟨false, none, some "RATE_LIMIT", true⟩
  else if code = "401" ∨ code = "403" then ⟨false, none, some "AUTH_ERROR", false⟩
  else if code = "131026" ∨ code = "131047" then ⟨false, none, some "ACCOUNT_BANNED", false⟩
  else if code = "131030" then ⟨false, none, some "USER_BLOCKED", false⟩
  else if code = "131051" then ⟨false, none, some "ACCOUNT_DELETED", false⟩
  else ⟨false, none, some "WHATSAPP_ERROR", true⟩

/-- JavaScript `o || d` for an optional string value. -/
def jsOr (o : Option String) (d : String) : String :=
  if optTruthy o then o.getD "" else d

/-- JavaScript replace of the first "+" by the empty string (`.replace` with a
string pattern touches only the first occurrence). -/
def removeFirstPlus (s : String) : String := String.mk (go s.data)
where
  go : List Char → List Char
    | [] => []
    | c :: cs => if c = '+' then cs else c :: go cs

/-- Model of `s || undefined`: an empty string becomes `undefined`. -/
def jsStringOrNone (o : Option String) : Option String :=
  if optTruthy o then o else none

/-- Model of `WhatsAppAgent.execute` of the enhanced agent (lines 77-188), with the
Twilio lookup abstracted as `tw`. On a lookup error with validation data
available it falls back to a mock response built from that data
(lines 93-130); on a lookup error without fallback it maps the error
(lines 132-135); otherwise it builds the presence record (lines 137-177).
Both success paths set `verified := false`. -/
def whatsappExecute (input : WhatsAppInput) (tw : TwilioOutcome) : WhatsAppResponse :=
  match tw with
  | .err code _ =>
    match input.validationData with
    | some vd =>
        let mock : TwilioLookupResponse :=
          { valid := true
            country_code := removeFirstPlus vd.countryCode
            line_type_intelligence := some ⟨vd.lineType, jsOr vd.carrier "Unknown"⟩
            caller_name := none }
        let hasWhatsApp := detectWhatsAppPresence mock
        let businessData := detectBusinessAccount input.phoneNumber mock
        { success := true
          data := some
            { exists_ := hasWhatsApp, verified := false
              businessAccount := businessData.isLikelyBusiness
              profilePicture := false
              about := mock.line_type_intelligence.map LineTypeIntelligence.type }
          errorCode := none, recoverable := true }
    | none => whatsappHandleError code
  | .ok d =>
      let hasWhatsApp := detectWhatsAppPresence d
      let businessData := detectBusinessAccount input.phoneNumber d
      { success := true
        data := some
          { exists_ := hasWhatsApp, verified := false
            businessAccount := businessData.isLikelyBusiness
            profilePicture := false
            about := jsStringOrNone (d.line_type_intelligence.map LineTypeIntelligence.type) }
        errorCode := none, recoverable := true }

/-! ## InactiveAccountAgent (InactiveAccountAgent.ts) -/

/-- Model of `DeliveryHistory` (InactiveAccountAgent.ts lines 26-32); timestamps are
milliseconds since the epoch. -/
structure DeliveryHistory where
  totalMessages : Nat
  deliveredMessages : Nat
  failedMessages : Nat
  lastDeliveryAttempt : Option Int
  lastSuccessfulDelivery : Option Int
deriving DecidableEq, Repr

/-- Model of `CarrierStatus` (lines 34-38). -/
structure CarrierStatus where
  active : Bool
  lineType : String
  carrier : String
deriving DecidableEq, Repr

/-- Model of `countryPrevalence` component of the result, in percent. -/
structure CountryPrevalence where
  country : String
  whatsappUsage : Nat
deriving DecidableEq, Repr

/-- Model of `InactivityStatus` as returned by `analyzeInactivity` (lines 313-327). -/
structure InactivityStatus where
  isInactive : Bool
  daysSinceActive : Int
  inactivityScore : Nat
  deliveryProbability : Int
  confidence : ℚ
  severity : String
  reasons : List String
  recommendation : String
  alternativeChannels : List String
  countryPrevalence : CountryPrevalence
deriving DecidableEq, Repr

/-- Model of `InactiveAccountAgent.WHATSAPP_PREVALENCE` (lines 42-56), in percent;
absent countries default to 50 (`|| 0.50`; no entry is zero). -/
def inactivePrevalence (countryCode : String) : Nat :=
  (([("IN", 90), ("BR", 95), ("MX", 92), ("ES", 85), ("IT", 80), ("DE", 75),
     ("GB", 70), ("FR", 68), ("US", 30), ("CA", 35), ("JP", 40), ("CN", 5),
     ("KR", 25)] : List (String × Nat)).lookup countryCode).getD 50

/-- Model of `InactiveAccountAgent.extractCountryCode` (lines 361-379). -/
def extractCountryCode (phoneNumber : String) : String :=
  let cleaned := digitsOnly phoneNumber
  if strStartsWith cleaned "1" then "US"
  else if strStartsWith cleaned "91" then "IN"
  else if strStartsWith cleaned "55" then "BR"
  else if strStartsWith cleaned "52" then "MX"
  else if strStartsWith cleaned "44" then "GB"
  else if strStartsWith cleaned "49" then "DE"
  else if strStartsWith cleaned "33" then "FR"
  else if strStartsWith cleaned "39" then "IT"
  else if strStartsWith cleaned "34" then "ES"
  else if strStartsWith cleaned "81" then "JP"
  else if strStartsWith cleaned "82" then "KR"
  else if strStartsWith cleaned "86" then "CN"
  else "UNKNOWN"

/-- JavaScript `Math.round(failureRate * 100)` for
`failureRate = failed / total`, `total > 0`: round half up, computed
exactly over integers as `⌊(200·failed + total) / (2·total)⌋`. -/
def jsRoundRate100 (failed total : Nat) : Int :=
  ((200 * failed + total : Int)).fdiv (2 * total)

/-- Model of `InactiveAccountAgent.suggestAlternatives` (lines 333-356). -/
def suggestAlternatives (score : Nat) (carrierStatus : CarrierStatus) : List String :=
  if score ≥ 50 then
    (if carrierStatus.lineType = "mobile" then ["SMS", "Voice Call"] else []) ++
    (if carrierStatus.lineType = "landline" then ["Voice Call"] else []) ++
    ["Email", "Postal Mail"]
  else if score ≥ 30 then
    (if carrierStatus.lineType = "mobile" then ["SMS"] else []) ++ ["Email"]
  else []

/-- Check 1 of `analyzeInactivity` (lines 229-267): delivery-history
penalties. Returns (score delta, reasons, daysSinceActive). With zero
total messages the branch is skipped entirely and the neutral reason is
recorded instead. `now` abstracts `Date.now()`; the float comparisons of
the failure rate are modelled exactly by integer cross-multiplication. -/
def historyCheck (deliveryHistory : DeliveryHistory) (now : Int) :
    Nat × List String × Int :=
  if deliveryHistory.totalMessages > 0 then
    let failed := deliveryHistory.failedMessages
    let total := deliveryHistory.totalMessages
    let rateStr := toString (jsRoundRate100 failed total) ++ "% message delivery failure rate"
    -- failureRate = failed / total; `failureRate > 0.8` iff 5·failed > 4·total,
    -- `failureRate > 0.5` iff 2·failed > total (total > 0, exact arithmetic)
    let acc : Nat × List String :=
      if 5 * failed > 4 * total then (35, [rateStr])
      else if 2 * failed > total then (20, [rateStr])
      else (0, [])
    match deliveryHistory.lastSuccessfulDelivery with
    | some t =>
      let daysSinceSuccess : Int := (now - t).fdiv (1000 * 60 * 60 * 24)
      if daysSinceSuccess > 730 then
        (acc.1 + 40, acc.2 ++ ["No successful delivery for " ++
          toString (daysSinceSuccess.fdiv 365) ++ " years"], daysSinceSuccess)
      else if daysSinceSuccess > 365 then
        (acc.1 + 30, acc.2 ++ ["No successful delivery for " ++
          toString (daysSinceSuccess.fdiv 365) ++ " year"], daysSinceSuccess)
      else if daysSinceSuccess > 180 then
        (acc.1 + 20, acc.2 ++ ["No successful delivery for " ++
          toString (daysSinceSuccess.fdiv 30) ++ " months"], daysSinceSuccess)
      else if daysSinceSuccess > 30 then
        (acc.1 + 10, acc.2 ++ ["No successful delivery for " ++
          toString daysSinceSuccess ++ " days"], daysSinceSuccess)
      else (acc.1, acc.2, 0)
    | none => (acc.1, acc.2, 0)
  else (0, ["No delivery history available for analysis"], 0)

/-- Check 2 of `analyzeInactivity` (lines 270-279): carrier status
(a single if/else-if chain). -/
def carrierCheck (carrierStatus : CarrierStatus) : Nat × List String :=
  if !carrierStatus.active then
    (30, ["Phone number is no longer active with carrier"])
  else if carrierStatus.lineType = "landline" then
    (25, ["Landline number (unlikely to have active WhatsApp)"])
  else if carrierStatus.lineType = "voip" then
    (10, ["VoIP number (moderate WhatsApp usage)"])
  else (0, [])

/-- Model of `InactiveAccountAgent.analyzeInactivity` (lines 215-328). -/
def analyzeInactivity (phoneNumber : String) (deliveryHistory : DeliveryHistory)
    (carrierStatus : CarrierStatus) (now : Int) : InactivityStatus :=
  let countryCode := extractCountryCode phoneNumber
  let whatsappPrevalence := inactivePrevalence countryCode
  let h := historyCheck deliveryHistory now
  let c := carrierCheck carrierStatus
  let p : Nat × List String :=
    if whatsappPrevalence < 40 then
      (15, ["Low WhatsApp adoption in " ++ countryCode ++ " (" ++
        toString whatsappPrevalence ++ "% prevalence)"])
    else (0, [])
  let score := h.1 + c.1 + p.1
  let reasons := h.2.1 ++ c.2 ++ p.2
  let isInactive := score ≥ 50
  let deliveryChance : Int := max 0 (min 100 (100 - (score : Int)))
  let confidence : ℚ := min 1 ((score : ℚ) / 100)
  let sevRec : String × String :=
    if score ≥ 80 then
      ("critical", "🔴 CRITICAL: Account likely abandoned. Consider removing from contact list or using alternative channels.")
    else if score ≥ 60 then
      ("high", "🟠 HIGH RISK: Low chance of delivery. Try alternative contact methods (SMS, Email) first.")
    else if score ≥ 40 then
      ("moderate", "🟡 MODERATE RISK: May be inactive. Monitor delivery status closely.")
    else if score ≥ 20 then
      ("low", "🟢 LOW RISK: Account appears active. Safe to send messages.")
    else ("none", "✅ ACTIVE: High probability of message delivery.")
  { isInactive := isInactive
    daysSinceActive := h.2.2
    inactivityScore := score
    deliveryProbability := deliveryChance
    confidence := confidence
    severity := sevRec.1
    reasons := reasons
    recommendation := sevRec.2
    alternativeChannels := suggestAlternatives score carrierStatus
    countryPrevalence := ⟨countryCode, whatsappPrevalence⟩ }

/-! ## Supervisor (Supervisor.ts) -/

/-- The plan fields the supervisor workflow reads (`ExecutionPlan` of
types.ts restricted to `riskLevel` and `skipWhatsApp`). -/
structure ExecutionPlan where
  riskLevel : String
  skipWhatsApp : Bool
deriving DecidableEq, Repr

/-- Model of `metadata.retriesAttempted` of a successful ValidationAgent response:
`input.retryContext?.attempts || 0` (ValidationAgent.ts line 143). The
supervisor task closure `() => this.validationAgent.execute({..., retryContext})`
captures the local `retryContext` variable, which is assigned only after
`executeWithRetry` has returned (Supervisor.ts lines 931-951), so every
invocation of the task - the direct one and the retried ones - runs with
`retryContext = undefined`. -/
def validationRetriesAttempted (rcx : Option RetryContext) : Nat :=
  (rcx.map RetryContext.attempts).getD 0

/-- Model of `Supervisor.executeWithRetry` (lines 1064-1090) applied to the
validation stage. `valCall n` is the data of the nth invocation of the
validation task when that invocation succeeds (`none` = a failed response;
every ValidationAgent error response is marked recoverable, so a first
failure always hands over to the RetryAgent). Invocation 1 is the direct
call; invocations 2-4 are the `MAX_ATTEMPTS` retry attempts of the RetryAgent.
The result is the data and `metadata.retriesAttempted` of the final response. -/
def validationPhase (valCall : Nat → Option ValidationData) :
    Option (ValidationData × Nat) :=
  match valCall 1 with
  | some d => some (d, validationRetriesAttempted none)
  | none =>
    match valCall 2 with
    | some d => some (d, validationRetriesAttempted none)
    | none =>
      match valCall 3 with
      | some d => some (d, validationRetriesAttempted none)
      | none =>
        match valCall 4 with
        | some d => some (d, validationRetriesAttempted none)
        | none => none

/-- The `RetryContext` the supervisor rebuilds from a successful validation
response (Supervisor.ts lines 944-950). -/
def mkSupervisorRetryContext (retriesAttempted : Nat) : RetryContext :=
  { attempts := retriesAttempted
    maxAttempts := 3
    lastError := none
    backoffDelay := 2000
    useBackupKey := decide (retriesAttempted > 0)
    failedTools := [] }

/-- Model of `ValidationResult` (types.ts), restricted to the fields assembled from
the embedded stages (timing and log traces omitted). -/
structure ValidationResult where
  phoneNumber : String
  validation : ValidationData
  whatsapp : Option WhatsAppData
  confidence : ConfidenceScore
  executionPlan : ExecutionPlan
deriving DecidableEq, Repr

/-- Model of `Supervisor.validate` (lines 886-1059) over the outcome environment:
`plan` is the plan from the decision agent, `valCall` the validation-task
outcomes, `waOutcome` the data of the final WhatsApp-stage response when
that stage succeeds (`none` = it failed; it is consulted only when the
stage runs). Phase 3 runs iff the plan does not skip WhatsApp and the
merged line type is "mobile";
a failed WhatsApp response leaves `whatsappData` undefined without aborting.
A validation failure aborts the run (`throw`). -/
def supervisorValidate (phone : String) (plan : ExecutionPlan)
    (valCall : Nat → Option ValidationData) (waOutcome : Option WhatsAppData) :
    Except String ValidationResult :=
  match validationPhase valCall with
  | none => .error "Validation failed"
  | some (vd, ra) =>
    let retryContext := mkSupervisorRetryContext ra
    let whatsappData : Option WhatsAppData :=
      if ¬plan.skipWhatsApp ∧ vd.lineType = "mobile" then waOutcome else none
    let confidence := confidenceExecute
      { validation := vd
        whatsapp := whatsappData
        retryContext := some retryContext
        executionPlan := { skipWhatsApp := plan.skipWhatsApp, riskLevel := plan.riskLevel } }
    .ok { phoneNumber := phone
          validation := vd
          whatsapp := whatsappData
          confidence := confidence
          executionPlan := plan }

/-! ## Effect of each confidence analysis on the scoring state -/

/-- Model of `analysis1` base-score effect. -/
theorem analysis1_base (v : ValidationData) (s : ConfState) :
    (analysis1 v s).baseScore =
      s.baseScore - (if !v.valid then 15 else 0)
        - (if v.lineType = "unknown" then 5 else 0) := by
  simp only [analysis1]; split_ifs <;> (try dsimp only) <;> omega

/-- Model of `analysis1` leaves the carrier deduction unchanged. -/
theorem analysis1_carrier (v : ValidationData) (s : ConfState) :
    (analysis1 v s).carrierDeduction = s.carrierDeduction := by
  simp only [analysis1]; split_ifs <;> rfl

/-- Model of `analysis1` leaves the retry deduction unchanged. -/
theorem analysis1_retry (v : ValidationData) (s : ConfState) :
    (analysis1 v s).retryDeduction = s.retryDeduction := by
  simp only [analysis1]; split_ifs <;> rfl

/-- Model of `analysis1` leaves the WhatsApp bonus unchanged. -/
theorem analysis1_bonus (v : ValidationData) (s : ConfState) :
    (analysis1 v s).whatsappBonus = s.whatsappBonus := by
  simp only [analysis1]; split_ifs <;> rfl

/-- Model of `analysis2` leaves the base score unchanged. -/
theorem analysis2_base (v : ValidationData) (s : ConfState) :
    (analysis2 v s).baseScore = s.baseScore := by
  simp only [analysis2]; split_ifs <;> rfl

/-- Model of `analysis2` carrier-deduction effect. -/
theorem analysis2_carrier (v : ValidationData) (s : ConfState) :
    (analysis2 v s).carrierDeduction =
      (if v.source = SourceTag.both ∧ v.rawData.length = 2 then
        (if (detectCarrierConflicts v.rawData).length > 0 then 20 else s.carrierDeduction)
       else s.carrierDeduction) := by
  simp only [analysis2]; split_ifs <;> rfl

/-- Model of `analysis2` leaves the retry deduction unchanged. -/
theorem analysis2_retry (v : ValidationData) (s : ConfState) :
    (analysis2 v s).retryDeduction = s.retryDeduction := by
  simp only [analysis2]; split_ifs <;> rfl

/-- Model of `analysis2` leaves the WhatsApp bonus unchanged. -/
theorem analysis2_bonus (v : ValidationData) (s : ConfState) :
    (analysis2 v s).whatsappBonus = s.whatsappBonus := by
  simp only [analysis2]; split_ifs <;> rfl

/-- Model of `analysis3` leaves the base score unchanged. -/
theorem analysis3_base (rcx : Option RetryContext) (s : ConfState) :
    (analysis3 rcx s).baseScore = s.baseScore := by
  rcases rcx with _ | rc <;> simp only [analysis3] <;> split_ifs <;> rfl

/-- Model of `analysis3` leaves the carrier deduction unchanged. -/
theorem analysis3_carrier (rcx : Option RetryContext) (s : ConfState) :
    (analysis3 rcx s).carrierDeduction = s.carrierDeduction := by
  rcases rcx with _ | rc <;> simp only [analysis3] <;> split_ifs <;> rfl

/-- Model of `analysis3` retry-deduction effect. -/
theorem analysis3_retry (rcx : Option RetryContext) (s : ConfState) :
    (analysis3 rcx s).retryDeduction =
      (match rcx with
       | some rc => if rc.attempts > 0 then (rc.attempts : Int) * 10 else s.retryDeduction
       | none => s.retryDeduction) := by
  rcases rcx with _ | rc <;> simp only [analysis3] <;> split_ifs <;> rfl

/-- Model of `analysis3` leaves the WhatsApp bonus unchanged. -/
theorem analysis3_bonus (rcx : Option RetryContext) (s : ConfState) :
    (analysis3 rcx s).whatsappBonus = s.whatsappBonus := by
  rcases rcx with _ | rc <;> simp only [analysis3] <;> split_ifs <;> rfl

/-- Model of `analysis4` base-score effect. -/
theorem analysis4_base (v : ValidationData) (w : Option WhatsAppData)
    (plan : PlanInfo) (s : ConfState) :
    (analysis4 v w plan s).baseScore =
      s.baseScore -
        (match w with
         | some wa => if v.lineType = "landline" ∧ wa.exists_ then 10 else 0
         | none => if plan.skipWhatsApp then 5 else 0) := by
  rcases w with _ | wa <;> simp only [analysis4] <;> split_ifs <;> (try dsimp only) <;> omega

/-- Model of `analysis4` leaves the carrier deduction unchanged. -/
theorem analysis4_carrier (v : ValidationData) (w : Option WhatsAppData)
    (plan : PlanInfo) (s : ConfState) :
    (analysis4 v w plan s).carrierDeduction = s.carrierDeduction := by
  rcases w with _ | wa <;> simp only [analysis4] <;> split_ifs <;> rfl

/-- Model of `analysis4` leaves the retry deduction unchanged. -/
theorem analysis4_retry (v : ValidationData) (w : Option WhatsAppData)
    (plan : PlanInfo) (s : ConfState) :
    (analysis4 v w plan s).retryDeduction = s.retryDeduction := by
  rcases w with _ | wa <;> simp only [analysis4] <;> split_ifs <;> rfl

/-- Model of `analysis4` WhatsApp-bonus effect: a verified existing account sets the
bonus to 5 (overwriting), a business account adds 3. -/
theorem analysis4_bonus (v : ValidationData) (w : Option WhatsAppData)
    (plan : PlanInfo) (s : ConfState) :
    (analysis4 v w plan s).whatsappBonus =
      (match w with
       | some wa =>
           (if wa.exists_ ∧ wa.verified then 5 else s.whatsappBonus)
           + (if wa.businessAccount then 3 else 0)
       | none => s.whatsappBonus) := by
  rcases w with _ | wa <;> simp only [analysis4] <;> split_ifs <;> (try dsimp only) <;> omega

/-- Model of `analysis5` base-score effect. -/
theorem analysis5_base (v : ValidationData) (plan : PlanInfo) (s : ConfState) :
    (analysis5 v plan s).baseScore =
      s.baseScore -
        (if plan.riskLevel = "high" then
          (if v.source ≠ SourceTag.both then 10 else 0)
         else 0) := by
  simp only [analysis5]; split_ifs <;> (try dsimp only) <;> omega

/-- Model of `analysis5` leaves the carrier deduction unchanged. -/
theorem analysis5_carrier (v : ValidationData) (plan : PlanInfo) (s : ConfState) :
    (analysis5 v plan s).carrierDeduction = s.carrierDeduction := by
  simp only [analysis5]; split_ifs <;> rfl

/-- Model of `analysis5` leaves the retry deduction unchanged. -/
theorem analysis5_retry (v : ValidationData) (plan : PlanInfo) (s : ConfState) :
    (analysis5 v plan s).retryDeduction = s.retryDeduction := by
  simp only [analysis5]; split_ifs <;> rfl

/-- Model of `analysis5` leaves the WhatsApp bonus unchanged. -/
theorem analysis5_bonus (v : ValidationData) (plan : PlanInfo) (s : ConfState) :
    (analysis5 v plan s).whatsappBonus = s.whatsappBonus := by
  simp only [analysis5]; split_ifs <;> rfl

/-! ## Claim C1 -/

/-- Closed form of the score computed by `ConfidenceAgent.execute` before
clamping: each deduction and bonus as an independent additive term. -/
def confRawScore (input : ConfidenceInput) : Int :=
  let v := input.validation
  100 - (if !v.valid then 15 else 0)
      - (if v.lineType = "unknown" then 5 else 0)
      - (if v.source = SourceTag.both ∧ v.rawData.length = 2 then
           (if (detectCarrierConflicts v.rawData).length > 0 then 20 else 0)
         else 0)
      - (match input.retryContext with
         | some rc => if rc.attempts > 0 then (rc.attempts : Int) * 10 else 0
         | none => 0)
      + (match input.whatsapp with
         | some wa =>
             (if wa.exists_ ∧ wa.verified then 5 else 0)
             + (if wa.businessAccount then 3 else 0)
             - (if v.lineType = "landline" ∧ wa.exists_ then 10 else 0)
         | none => if input.executionPlan.skipWhatsApp then -5 else 0)
      - (if input.executionPlan.riskLevel = "high" then
           (if v.source ≠ SourceTag.both then 10 else 0)
         else 0)

set_option maxHeartbeats 1600000 in
/-- C1 (amended): the ConfidenceAggregator receives no InactivityRecord at
all - its input is validation data, optional WhatsApp data, optional retry
context and the plan slice - and applies no inactivity-based reduction:
for every input the returned score is exactly the clamp to [0,100] of the
base formula (validity, line-type, conflict, retry, WhatsApp and risk
terms), with no additional term. -/
theorem confidence_score_no_inactivity_term (input : ConfidenceInput) :
    (confidenceExecute input).score = min 100 (max 0 (confRawScore input)) := by
  rcases input with ⟨v, w, rcx, plan⟩
  simp only [confidenceExecute, confRawScore]
  simp only [analysis5_base, analysis5_carrier, analysis5_retry, analysis5_bonus,
    analysis4_base, analysis4_carrier, analysis4_retry, analysis4_bonus,
    analysis3_base, analysis3_carrier, analysis3_retry, analysis3_bonus,
    analysis2_base, analysis2_carrier, analysis2_retry, analysis2_bonus,
    analysis1_base, analysis1_carrier, analysis1_retry, analysis1_bonus]
  rcases w with _ | wa <;> rcases rcx with _ | rc <;> (try dsimp only) <;>
    split_ifs <;> omega

/-- The adjustment claimed by C1, transcribed from the spec sentence: when
an InactivityRecord is available and marks the number inactive, the score
is additionally reduced by 0.5 × (100 − deliveryProbability), applied after
the base formula and before clamping (exact rational arithmetic). -/
def specC1AdjustedScore (input : ConfidenceInput) (inact : InactivityStatus) : ℚ :=
  min 100 (max 0 ((confRawScore input : ℚ) -
    (1 / 2) * (100 - (inact.deliveryProbability : ℚ))))

/-- A clean single-source validation input: valid Indian mobile number, no
WhatsApp data, no retry context, low-risk plan. -/
def c1Validation : ValidationData :=
  { phoneNumber := "+919876543210", countryCode := "IN", countryName := "India",
    carrier := some "Bharti Airtel", lineType := "mobile", valid := true,
    formatted := none, source := SourceTag.numverify,
    rawData := [⟨RawSource.numverify, ⟨some "Bharti Airtel", some "mobile", none, true⟩⟩] }

/-- The confidence input built from `c1Validation`. -/
def c1Input : ConfidenceInput :=
  { validation := c1Validation, whatsapp := none, retryContext := none,
    executionPlan := ⟨false, "low"⟩ }

/-- An `InactivityStatus` actually produced by the InactiveAccountAgent
(60% failure rate and an inactive carrier: score 50, hence marked inactive
with delivery probability 50). -/
def c1Inactivity : InactivityStatus :=
  analyzeInactivity "+919876543210" ⟨10, 4, 6, some 0, some 0⟩ ⟨false, "mobile", "AT&T"⟩ 0

/-- C1 (counterexample): an inactivity record marking the number inactive
(deliveryProbability 50) should, per the claim, reduce the score from 100
to 75; the ConfidenceAggregator returns 100 - it has no channel through
which the record could reach it, so no reduction is ever applied. -/
theorem confidence_inactivity_counterexample :
    c1Inactivity.isInactive = true ∧
    (confidenceExecute c1Input).score = 100 ∧
    specC1AdjustedScore c1Input c1Inactivity = 75 ∧
    ((confidenceExecute c1Input).score : ℚ) ≠ specC1AdjustedScore c1Input c1Inactivity := by
  have hraw : confRawScore c1Input = 100 := by decide
  have hdp : c1Inactivity.deliveryProbability = 50 := by decide
  have hspec : specC1AdjustedScore c1Input c1Inactivity = 75 := by
    rw [specC1AdjustedScore, hraw, hdp]; norm_num
  have hscore : (confidenceExecute c1Input).score = 100 := by decide
  refine ⟨by decide, hscore, hspec, ?_⟩
  rw [hscore, hspec]; norm_num

/-! ## Claim C2 -/

/-- C2: for every input - any validation data, optional WhatsApp data,
optional retry context and plan - the score returned by the
ConfidenceAggregator satisfies 0 ≤ score ≤ 100. -/
theorem confidence_score_in_range (input : ConfidenceInput) :
    0 ≤ (confidenceExecute input).score ∧ (confidenceExecute input).score ≤ 100 := by
  simp only [confidenceExecute]
  exact ⟨le_min (by norm_num) (le_max_left _ _), min_le_left _ _⟩

/-! ## Claim C3 -/

/-- C3: the RetryAgent never performs more than `MAX_ATTEMPTS = 3` retry
attempts (zero for a non-recoverable error), and the backoff delays slept,
in order, are exactly `BASE_BACKOFF_MS × 2^(n−1)` for attempts
n = 1, …, attempts, i.e. 2s, 4s, 8s. -/
theorem retry_budget_and_backoff (originalError : AgentError) (failedTool : String)
    (taskSucceeds : Nat → Bool) :
    (retryExecute originalError failedTool taskSucceeds).context.attempts ≤ MAX_ATTEMPTS ∧
    (retryExecute originalError failedTool taskSucceeds).delays =
      (List.range (retryExecute originalError failedTool taskSucceeds).context.attempts).map
        (fun i => BASE_BACKOFF_MS * 2 ^ i) := by
  by_cases hrec : originalError.recoverable
  · by_cases h1 : taskSucceeds 1
    · constructor <;> simp [retryExecute, retryLoop, hrec, h1, MAX_ATTEMPTS,
        BASE_BACKOFF_MS, List.range_succ]
    · by_cases h2 : taskSucceeds 2
      · constructor <;> simp [retryExecute, retryLoop, hrec, h1, h2, MAX_ATTEMPTS,
          BASE_BACKOFF_MS, List.range_succ]
      · by_cases h3 : taskSucceeds 3
        · constructor <;> simp [retryExecute, retryLoop, hrec, h1, h2, h3, MAX_ATTEMPTS,
            BASE_BACKOFF_MS, List.range_succ]
        · constructor <;> simp [retryExecute, retryLoop, hrec, h1, h2, h3, MAX_ATTEMPTS,
            BASE_BACKOFF_MS, List.range_succ]
  · constructor <;> simp [retryExecute, hrec, MAX_ATTEMPTS]

/-! ## Claim C4 -/

/-- Model of `detectCarrierConflicts` on a NumVerify/Abstract pair is the three
checks in order. -/
theorem detectCarrierConflicts_pair (d1 d2 : RawPayload) :
    detectCarrierConflicts [⟨RawSource.numverify, d1⟩, ⟨RawSource.abstract, d2⟩] =
      carrierConflictsPart d1 d2 ++ lineTypeConflictsPart d1 d2 ++
        validityConflictsPart d1 d2 := rfl

/-- Model of `analysis2` discrepancy effect. -/
theorem analysis2_disc (v : ValidationData) (s : ConfState) :
    (analysis2 v s).discrepancies =
      (if v.source = SourceTag.both ∧ v.rawData.length = 2 then
        (if (detectCarrierConflicts v.rawData).length > 0 then
          s.discrepancies ++ detectCarrierConflicts v.rawData
         else s.discrepancies)
       else s.discrepancies) := by
  simp only [analysis2]; split_ifs <;> rfl

/-- Model of `analysis3` never removes a discrepancy. -/
theorem analysis3_disc_mem (rcx : Option RetryContext) (s : ConfState) (x : String)
    (hx : x ∈ s.discrepancies) : x ∈ (analysis3 rcx s).discrepancies := by
  rcases rcx with _ | rc <;> simp only [analysis3] <;> (try split_ifs) <;> simp [hx]

/-- Model of `analysis4` never removes a discrepancy. -/
theorem analysis4_disc_mem (v : ValidationData) (w : Option WhatsAppData)
    (plan : PlanInfo) (s : ConfState) (x : String)
    (hx : x ∈ s.discrepancies) : x ∈ (analysis4 v w plan s).discrepancies := by
  rcases w with _ | wa <;> simp only [analysis4] <;> split_ifs <;> simp [hx]

/-- Model of `analysis5` never removes a discrepancy. -/
theorem analysis5_disc_mem (v : ValidationData) (plan : PlanInfo) (s : ConfState)
    (x : String) (hx : x ∈ s.discrepancies) : x ∈ (analysis5 v plan s).discrepancies := by
  simp only [analysis5]; split_ifs <;> simp [hx]

/-- C4: when both metadata sources returned data, NumVerify reporting
carrier "AT&T" and Abstract reporting "AT&T Mobility" (the two agreeing on
normalized line type and on validity), conflict detection treats this as a
genuine mismatch: the conflict list is exactly the one carrier-mismatch
entry, the score breakdown carries the 20-point carrier deduction, and the
entry appears in the discrepancy list. -/
theorem carrier_mismatch_att_vs_att_mobility
    (v : ValidationData) (w : Option WhatsAppData) (rcx : Option RetryContext)
    (plan : PlanInfo) (d1 d2 : RawPayload)
    (hsrc : v.source = SourceTag.both)
    (hraw : v.rawData = [⟨RawSource.numverify, d1⟩, ⟨RawSource.abstract, d2⟩])
    (hc1 : d1.carrier = some "AT&T")
    (hc2 : d2.carrier = some "AT&T Mobility")
    (hlt : d1.line_type.map strToLower = d2.type.map strToLower)
    (hval : d1.valid = d2.valid) :
    detectCarrierConflicts v.rawData =
      ["Carrier mismatch: NumVerify=\"AT&T\" vs Abstract=\"AT&T Mobility\""] ∧
    (confidenceExecute ⟨v, w, rcx, plan⟩).breakdown.carrierDeduction = 20 ∧
    "Carrier mismatch: NumVerify=\"AT&T\" vs Abstract=\"AT&T Mobility\"" ∈
      (confidenceExecute ⟨v, w, rcx, plan⟩).discrepancies := by
  have hcar : carrierConflictsPart d1 d2 =
      ["Carrier mismatch: NumVerify=\"AT&T\" vs Abstract=\"AT&T Mobility\""] := by
    simp only [carrierConflictsPart, hc1, hc2]; decide
  have hline : lineTypeConflictsPart d1 d2 = [] := by
    simp [lineTypeConflictsPart, hlt]
  have hvalid : validityConflictsPart d1 d2 = [] := by
    simp [validityConflictsPart, hval]
  have hdet : detectCarrierConflicts v.rawData =
      ["Carrier mismatch: NumVerify=\"AT&T\" vs Abstract=\"AT&T Mobility\""] := by
    rw [hraw, detectCarrierConflicts_pair, hcar, hline, hvalid]; simp
  have hlen : v.rawData.length = 2 := by rw [hraw]; rfl
  refine ⟨hdet, ?_, ?_⟩
  · simp only [confidenceExecute]
    simp only [analysis5_carrier, analysis4_carrier, analysis3_carrier,
      analysis2_carrier, analysis1_carrier]
    rw [if_pos ⟨hsrc, hlen⟩, if_pos (by rw [hdet]; decide)]
  · simp only [confidenceExecute]
    apply analysis5_disc_mem
    apply analysis4_disc_mem
    apply analysis3_disc_mem
    rw [analysis2_disc, if_pos ⟨hsrc, hlen⟩, if_pos (by rw [hdet]; decide), hdet]
    simp

/-- A dual-source validation record with NumVerify carrier "AT&T" and
Abstract carrier "AT&T Mobility", agreeing on line type and validity. -/
def c4Validation : ValidationData :=
  { phoneNumber := "+14155552671", countryCode := "US", countryName := "United States",
    carrier := some "AT&T Mobility", lineType := "mobile", valid := true,
    formatted := none, source := SourceTag.both,
    rawData := [⟨RawSource.numverify, ⟨some "AT&T", some "mobile", none, true⟩⟩,
                ⟨RawSource.abstract, ⟨some "AT&T Mobility", none, some "mobile", true⟩⟩] }

/-- C4 witness: the theorem applied at a concrete dual-source input. -/
theorem carrier_mismatch_att_vs_att_mobility_witness :
    detectCarrierConflicts c4Validation.rawData =
      ["Carrier mismatch: NumVerify=\"AT&T\" vs Abstract=\"AT&T Mobility\""] ∧
    (confidenceExecute ⟨c4Validation, none, none, ⟨false, "low"⟩⟩).breakdown.carrierDeduction
      = 20 ∧
    "Carrier mismatch: NumVerify=\"AT&T\" vs Abstract=\"AT&T Mobility\"" ∈
      (confidenceExecute ⟨c4Validation, none, none, ⟨false, "low"⟩⟩).discrepancies :=
  carrier_mismatch_att_vs_att_mobility c4Validation none none ⟨false, "low"⟩
    ⟨some "AT&T", some "mobile", none, true⟩
    ⟨some "AT&T Mobility", none, some "mobile", true⟩
    rfl rfl rfl rfl rfl rfl

/-! ## Claim C5 -/

/-- C5 (counterexample): NumVerify reporting "landline" and Abstract
reporting "fixed_line" - the reverse of the one exempted order - DOES
append a line-type conflict entry, contradicting the claim that the two
vocabularies are treated as equivalent in either order. -/
theorem line_type_equivalence_counterexample :
    detectCarrierConflicts
      [⟨RawSource.numverify, ⟨some "Vodafone", some "landline", none, true⟩⟩,
       ⟨RawSource.abstract, ⟨some "Vodafone", none, some "fixed_line", true⟩⟩] =
      ["Line type mismatch: NumVerify=\"landline\" vs Abstract=\"fixed_line\""] := by
  decide

/-- C5 (amended): the fixed_line/landline exemption is one-directional:
when NumVerify reports "fixed_line" and Abstract reports "landline"
(after lower-casing) no line-type conflict entry is appended, but in the
reverse order - NumVerify "landline", Abstract "fixed_line" - a line-type
mismatch entry is appended. -/
theorem line_type_equivalence_one_directional (s1 s2 : RawPayload) :
    (s1.line_type.map strToLower = some "fixed_line" →
     s2.type.map strToLower = some "landline" →
     lineTypeConflictsPart s1 s2 = []) ∧
    (s1.line_type.map strToLower = some "landline" →
     s2.type.map strToLower = some "fixed_line" →
     lineTypeConflictsPart s1 s2 =
       ["Line type mismatch: NumVerify=\"landline\" vs Abstract=\"fixed_line\""]) := by
  constructor <;> intro h1 h2 <;> simp only [lineTypeConflictsPart, h1, h2] <;> decide

/-- C5 witness: the amended theorem applied at concrete payloads, one for
each order. -/
theorem line_type_equivalence_one_directional_witness :
    lineTypeConflictsPart ⟨some "BT", some "fixed_line", none, true⟩
      ⟨some "BT", none, some "landline", true⟩ = [] ∧
    lineTypeConflictsPart ⟨some "BT", some "landline", none, true⟩
      ⟨some "BT", none, some "fixed_line", true⟩ =
      ["Line type mismatch: NumVerify=\"landline\" vs Abstract=\"fixed_line\""] :=
  ⟨(line_type_equivalence_one_directional _ _).1 (by decide) (by decide),
   (line_type_equivalence_one_directional _ _).2 (by decide) (by decide)⟩

/-! ## Claim C6 -/

/-- A successful validation outcome with a mobile line type. -/
def c6Validation : ValidationData :=
  { phoneNumber := "+14155552671", countryCode := "US", countryName := "United States",
    carrier := some "AT&T", lineType := "mobile", valid := true, formatted := none,
    source := SourceTag.numverify,
    rawData := [⟨RawSource.numverify, ⟨some "AT&T", some "mobile", none, true⟩⟩] }

/-- The result the supervisor assembles when the plan does not skip
WhatsApp, the validation succeeds on the first call with `c6Validation`,
and the WhatsApp stage fails (its final response unsuccessful). -/
def c6Result : ValidationResult :=
  { phoneNumber := "+14155552671"
    validation := c6Validation
    whatsapp := none
    confidence := confidenceExecute
      { validation := c6Validation, whatsapp := none,
        retryContext := some (mkSupervisorRetryContext 0),
        executionPlan := ⟨false, "low"⟩ }
    executionPlan := ⟨"low", false⟩ }

/-- C6 (counterexample): the plan does not skip WhatsApp and the merged
line type is mobile, yet the assembled result carries no presence record,
because the final response of the WhatsApp stage was unsuccessful - so
"presence present iff ¬skip ∧ mobile" fails in the ← direction. -/
theorem presence_iff_counterexample :
    ¬ (∀ (phone : String) (plan : ExecutionPlan)
        (valCall : Nat → Option ValidationData) (waOutcome : Option WhatsAppData)
        (r : ValidationResult),
        supervisorValidate phone plan valCall waOutcome = .ok r →
          (r.whatsapp.isSome ↔
            (plan.skipWhatsApp = false ∧ r.validation.lineType = "mobile"))) := by
  intro h
  have h2 := h "+14155552671" ⟨"low", false⟩ (fun _ => some c6Validation) none c6Result rfl
  exact absurd (h2.mpr ⟨rfl, rfl⟩) (by decide)

/-- C6 (amended): in the assembled ValidationResult, a presence (WhatsApp)
record is present iff the skip flag of the plan is false AND the merged line
type is mobile AND the final response of the WhatsApp stage succeeded with
data. -/
theorem presence_iff_skip_mobile_and_success
    (phone : String) (plan : ExecutionPlan)
    (valCall : Nat → Option ValidationData) (waOutcome : Option WhatsAppData)
    (r : ValidationResult)
    (h : supervisorValidate phone plan valCall waOutcome = .ok r) :
    r.whatsapp.isSome ↔
      (plan.skipWhatsApp = false ∧ r.validation.lineType = "mobile" ∧
        waOutcome.isSome) := by
  rcases hp : validationPhase valCall with _ | ⟨vd, ra⟩ <;>
    simp only [supervisorValidate, hp] at h
  · cases h
  · rw [Except.ok.injEq] at h
    subst h
    dsimp only
    by_cases hskip : plan.skipWhatsApp <;> by_cases hmob : vd.lineType = "mobile" <;>
      rcases waOutcome with _ | wa <;> simp [hskip, hmob]

/-- The result assembled when the WhatsApp stage succeeds for the same
plan and validation outcome. -/
def c6SuccessResult : ValidationResult :=
  { phoneNumber := "+14155552671"
    validation := c6Validation
    whatsapp := some ⟨true, false, false, false, none⟩
    confidence := confidenceExecute
      { validation := c6Validation, whatsapp := some ⟨true, false, false, false, none⟩,
        retryContext := some (mkSupervisorRetryContext 0),
        executionPlan := ⟨false, "low"⟩ }
    executionPlan := ⟨"low", false⟩ }

/-- C6 witness: the amended theorem applied to a run where the WhatsApp
stage succeeded; the presence record is present. -/
theorem presence_iff_skip_mobile_and_success_witness :
    c6SuccessResult.whatsapp.isSome := by
  have h := presence_iff_skip_mobile_and_success "+14155552671" ⟨"low", false⟩
    (fun _ => some c6Validation) (some ⟨true, false, false, false, none⟩)
    c6SuccessResult rfl
  exact h.mpr ⟨rfl, rfl, rfl⟩

/-! ## Claim C7 -/

/-- Validation-task outcomes of end-to-end scenario C: the direct call
fails, the first retry attempt fails, the second retry attempt (third call
overall) succeeds. -/
def c7ValCall : Nat → Option ValidationData :=
  fun n => if n = 3 then some c6Validation else none

/-- C7: in the fails-twice-then-succeeds scenario the RetryAgent itself
records attempts = 2 with the backup key active, but the RetryContext the
supervisor forwards to the ConfidenceAggregator is rebuilt from the final
`metadata.retriesAttempted` of the final response - which is always 0 because the
retried task closure still sees `retryContext = undefined` - so the
aggregator receives attempts = 0, useBackupKey = false and applies a zero
retry deduction, not the −30 the claim requires. -/
theorem retry_telemetry_lost_in_scenario_c :
    (retryExecute ⟨"NETWORK_ERROR", "timeout", true⟩ "numverify"
        (fun a => a == 2)).context.attempts = 2 ∧
    (retryExecute ⟨"NETWORK_ERROR", "timeout", true⟩ "numverify"
        (fun a => a == 2)).context.useBackupKey = true ∧
    ((validationPhase c7ValCall).map (fun p => mkSupervisorRetryContext p.2)) =
      some ⟨0, 3, none, 2000, false, []⟩ ∧
    ((supervisorValidate "+14155552671" ⟨"low", false⟩ c7ValCall none).toOption.map
        (fun r => r.confidence.breakdown.retryDeduction)) = some 0 := by
  refine ⟨by decide, by decide, by decide, by decide⟩

/-! ## Claim C8 -/

/-- C8: with zero delivery-history records the InactivityAnalyzer adds no
history penalty and records the neutral reason; with an active mobile
carrier and a country adoption prior of at least 40% the total score is 0
and the number is not marked inactive. -/
theorem no_history_is_neutral (phone : String) (dh : DeliveryHistory)
    (cs : CarrierStatus) (now : Int)
    (hdh : dh.totalMessages = 0)
    (hact : cs.active = true)
    (hmob : cs.lineType = "mobile")
    (hprev : 40 ≤ inactivePrevalence (extractCountryCode phone)) :
    (analyzeInactivity phone dh cs now).isInactive = false ∧
    (analyzeInactivity phone dh cs now).inactivityScore = 0 ∧
    "No delivery history available for analysis" ∈
      (analyzeInactivity phone dh cs now).reasons := by
  have hh : historyCheck dh now = (0, ["No delivery history available for analysis"], 0) := by
    simp [historyCheck, hdh]
  have hc : carrierCheck cs = (0, []) := by
    simp [carrierCheck, hact, hmob]
  have hp : ¬ (inactivePrevalence (extractCountryCode phone) < 40) := by omega
  simp only [analyzeInactivity, hh, hc]
  rw [if_neg hp]
  refine ⟨by simp, by simp, by simp⟩

/-- C8 witness: the theorem applied at a concrete Indian mobile number
(prior 90%) with empty history and an active mobile carrier. -/
theorem no_history_is_neutral_witness :
    (analyzeInactivity "+919876543210" ⟨0, 0, 0, none, none⟩
        ⟨true, "mobile", "Bharti Airtel"⟩ 0).isInactive = false ∧
    (analyzeInactivity "+919876543210" ⟨0, 0, 0, none, none⟩
        ⟨true, "mobile", "Bharti Airtel"⟩ 0).inactivityScore = 0 ∧
    "No delivery history available for analysis" ∈
      (analyzeInactivity "+919876543210" ⟨0, 0, 0, none, none⟩
        ⟨true, "mobile", "Bharti Airtel"⟩ 0).reasons :=
  no_history_is_neutral "+919876543210" ⟨0, 0, 0, none, none⟩
    ⟨true, "mobile", "Bharti Airtel"⟩ 0 rfl rfl rfl (by decide)

/-! ## Claim C9 -/

/-- Every error response of `handleError` carries no data. -/
theorem whatsappHandleError_data (code : String) :
    (whatsappHandleError code).data = none := by
  simp only [whatsappHandleError]; split_ifs <;> rfl

/-- C9: every presence record the WhatsApp agent produces - on the
authoritative Twilio path and on the degraded fallback path that reuses
validation data - has verified = false; consequently the +5 bonus for an
existing verified presence record can never fire in the
ConfidenceAggregator: the WhatsApp bonus is exactly the +3 business term. -/
theorem whatsapp_verified_always_false
    (input : WhatsAppInput) (tw : TwilioOutcome) (d : WhatsAppData)
    (h : (whatsappExecute input tw).data = some d) :
    d.verified = false ∧
    ∀ c : ConfidenceInput, c.whatsapp = some d →
      (confidenceExecute c).breakdown.whatsappBonus =
        (if d.businessAccount then (3 : Int) else 0) := by
  have hv : d.verified = false := by
    rcases tw with ⟨dtw⟩ | ⟨code, msg⟩
    · simp only [whatsappExecute, Option.some.injEq] at h
      rw [← h]
    · rcases hvd : input.validationData with _ | vd
      · rw [whatsappExecute, hvd] at h
        rw [whatsappHandleError_data] at h
        cases h
      · rw [whatsappExecute, hvd] at h
        simp only [Option.some.injEq] at h
        rw [← h]
  refine ⟨hv, ?_⟩
  rintro ⟨v, w, rcx, plan⟩ hc
  dsimp only at hc
  subst hc
  simp only [confidenceExecute]
  simp only [analysis5_bonus, analysis4_bonus, analysis3_bonus, analysis2_bonus,
    analysis1_bonus]
  simp [hv]

/-- C9 witness: the theorem applied at a concrete successful Twilio
lookup; the record is unverified and the aggregator grants no bonus. -/
theorem whatsapp_verified_always_false_witness :
    ((⟨true, false, false, false, some "mobile"⟩ : WhatsAppData).verified = false) ∧
    (confidenceExecute ⟨c6Validation, some ⟨true, false, false, false, some "mobile"⟩,
        none, ⟨false, "low"⟩⟩).breakdown.whatsappBonus = 0 := by
  have h := whatsapp_verified_always_false ⟨"+919876543210", none, none⟩
    (.ok ⟨true, "IN", some ⟨"mobile", "Bharti Airtel"⟩, none⟩)
    ⟨true, false, false, false, some "mobile"⟩ (by decide)
  exact ⟨h.1, by rw [h.2 _ rfl]; decide⟩

/-! ## Claim C10 -/

/-- The cases in which claim C10 says presence detection returns false,
transcribed from the claim: valid mobiles with prior below 30%, landlines
always, VoIP with prior below 70%, and unknown line types always. -/
def c10ClaimedFalseCases (t : TwilioLookupResponse) : Prop :=
  (t.line_type_intelligence.map LineTypeIntelligence.type = some "mobile" ∧
    t.valid = true ∧ waPrevalence t.country_code < 30)
  ∨ t.line_type_intelligence.map LineTypeIntelligence.type = some "landline"
  ∨ (t.line_type_intelligence.map LineTypeIntelligence.type = some "voip" ∧
      waPrevalence t.country_code < 70)
  ∨ (t.line_type_intelligence.map LineTypeIntelligence.type ≠ some "mobile" ∧
     t.line_type_intelligence.map LineTypeIntelligence.type ≠ some "landline" ∧
     t.line_type_intelligence.map LineTypeIntelligence.type ≠ some "voip")

/-- C10 (counterexample): an INVALID mobile in a high-prior country
(IN, 90%) is none of the false cases the claim enumerates, yet presence
detection returns false - the "only" enumeration of the claim omits the
validity requirement. -/
theorem presence_detection_counterexample :
    detectWhatsAppPresence ⟨false, "IN", some ⟨"mobile", "Bharti Airtel"⟩, none⟩ = false ∧
    ¬ c10ClaimedFalseCases ⟨false, "IN", some ⟨"mobile", "Bharti Airtel"⟩, none⟩ := by
  constructor
  · decide
  · simp only [c10ClaimedFalseCases]; decide

/-- C10 (amended): presence detection returns true exactly for valid
mobiles with country prior at least 30% (the default prior for unlisted
countries being 60%) and valid VoIP numbers with prior at least 70%; it
returns false in every other case - mobiles that are invalid or below the
30% prior (e.g. CN, KR), landlines always, VoIP numbers that are invalid
or below the 70% prior, and missing or unknown line types always. -/
theorem presence_detection_characterization (t : TwilioLookupResponse) :
    detectWhatsAppPresence t = true ↔
      ((t.line_type_intelligence.map LineTypeIntelligence.type = some "mobile" ∧
        t.valid = true ∧ 30 ≤ waPrevalence t.country_code) ∨
       (t.line_type_intelligence.map LineTypeIntelligence.type = some "voip" ∧
        t.valid = true ∧ 70 ≤ waPrevalence t.country_code)) := by
  rcases t with ⟨valid, cc, lti, cn⟩
  rcases lti with _ | ⟨ty, cname⟩
  · simp [detectWhatsAppPresence]
  · rcases valid <;>
      simp only [detectWhatsAppPresence, Option.map_some'] <;>
      split_ifs <;> simp_all <;> omega
